import Mathlib

/-!
Verification of the goodfi-backend escrow / loan / verification routes.

The JavaScript route handlers are shallowly embedded as pure Lean functions
over an explicit `Store` (the rows of the `escrows`, `escrow_milestones`,
`escrow_activities`, `loans`, `loan_status_history` tables).  Monetary values
are modelled as exact rationals, statuses as the literal strings used by the
code, timestamps as `Option Nat` stamped from a `now` parameter, and
nullable columns as `Option` types.  Each handler returns the HTTP response
(`ApiResult`) together with the store after its writes; error paths that
perform no write return the store unchanged, mirroring the source.
-/

/-- HTTP/JSON response envelope: status code, `success` flag, optional
`error` message and optional `currentStatus` payload field (used by the
lender loan-review routes). -/
structure ApiResult where
  code : Nat
  success : Bool
  error : Option String := none
  currentStatus : Option String := none
deriving DecidableEq

def apiOk (c : Nat) : ApiResult := { code := c, success := true }

def apiErr (c : Nat) (e : String) : ApiResult :=
  { code := c, success := false, error := some e }

/-- Row of the `escrows` table. -/
structure Escrow where
  id : Nat
  sme_id : Nat
  customer_id : Option Nat := none
  customer_email : String := ""
  project_name : String := ""
  project_description : String := ""
  total_amount : ℚ := 0
  deposited_amount : ℚ := 0
  released_amount : ℚ := 0
  status : String
  invite_token : String := ""
  invite_sent_at : Option Nat := none
  invite_accepted_at : Option Nat := none
  deposited_at : Option Nat := none
  created_at : Option Nat := none
deriving DecidableEq

/-- Row of the `escrow_milestones` table. -/
structure Milestone where
  id : Nat
  escrow_id : Nat
  title : String := ""
  description : String := ""
  amount : ℚ := 0
  percentage : ℚ := 0
  order_index : Nat := 0
  status : String
  evidence_description : Option String := none
  evidence_url : Option String := none
  submitted_at : Option Nat := none
  submitted_by : Option Nat := none
  approved_at : Option Nat := none
  approved_by : Option Nat := none
  released_at : Option Nat := none
  rejection_reason : Option String := none
deriving DecidableEq

/-- Row of the append-only `escrow_activities` table. -/
structure Activity where
  escrow_id : Nat
  milestone_id : Option Nat := none
  user_id : Nat
  action_type : String
  description : String := ""
deriving DecidableEq

/-- Row of the `loans` table (fields used by the lender review routes). -/
structure Loan where
  id : Nat
  sme_id : Nat := 0
  lender_id : Option Nat := none
  amount_requested : ℚ := 0
  status : String
  lender_notes : Option String := none
  approval_conditions : Option String := none
  reviewed_at : Option Nat := none
  approved_at : Option Nat := none
deriving DecidableEq

/-- Row of the `loan_status_history` table. -/
structure LoanHistoryEntry where
  loan_id : Nat
  old_status : String
  new_status : String
  changed_by : Nat
  notes : Option String := none
deriving DecidableEq

/-- The relational store backing the routes.  `nextId` models the
auto-increment id sequence. -/
structure Store where
  escrows : List Escrow := []
  milestones : List Milestone := []
  activities : List Activity := []
  loans : List Loan := []
  loanHistory : List LoanHistoryEntry := []
  nextId : Nat := 1
deriving DecidableEq

def emptyStore : Store := {}

/-- Authenticated principal (id, email, role) as produced by the auth
middleware. -/
structure Actor where
  id : Nat
  email : String := ""
  role : String := ""
deriving DecidableEq

-- ==================== store queries and single-row updates ====================

def findEscrow (s : Store) (i : Nat) : Option Escrow :=
  s.escrows.find? (fun e => e.id == i)

def findEscrowByToken (s : Store) (tok : String) : Option Escrow :=
  s.escrows.find? (fun e => e.invite_token == tok)

def findMilestone (s : Store) (i : Nat) : Option Milestone :=
  s.milestones.find? (fun m => m.id == i)

def findLoan (s : Store) (i : Nat) : Option Loan :=
  s.loans.find? (fun l => l.id == i)

/-- `UPDATE ... WHERE id = i` on the escrows table. -/
def updEscrow (l : List Escrow) (i : Nat) (f : Escrow → Escrow) : List Escrow :=
  l.map (fun e => if e.id == i then f e else e)

/-- `UPDATE ... WHERE id = i` on the milestones table. -/
def updMilestone (l : List Milestone) (i : Nat) (f : Milestone → Milestone) : List Milestone :=
  l.map (fun m => if m.id == i then f m else m)

/-- `UPDATE ... WHERE id = i` on the loans table. -/
def updLoan (l : List Loan) (i : Nat) (f : Loan → Loan) : List Loan :=
  l.map (fun x => if x.id == i then f x else x)

-- ==================== escrow routes (escrow.js) ====================

/-- One entry of the `milestones` array in the create-escrow request body. -/
structure MilestoneInput where
  title : String := ""
  description : String := ""
  percentage : ℚ
deriving DecidableEq

/-- `milestones.reduce((sum, m) => sum + parseFloat(m.percentage), 0)`. -/
def sumPercent (ms : List MilestoneInput) : ℚ :=
  ms.foldl (fun acc m => acc + m.percentage) 0

/-- `Math.abs` on rationals. -/
def mathAbs (q : ℚ) : ℚ := if q < 0 then -q else q

/-- Sum of the `amount` column over a list of milestone rows. -/
def sumAmounts (l : List Milestone) : ℚ :=
  l.foldl (fun acc m => acc + m.amount) 0

/-- The milestone rows inserted by `POST /api/escrow/create`:
`milestones.map((m, index) => ({..., amount: (percentage/100)*total_amount,
order_index: index+1, status: 'pending'}))`, written as structural recursion
with `idx` starting at 1; row ids continue the id sequence after `eid`. -/
def buildMilestoneRows (eid : Nat) (total : ℚ) (idx : Nat) :
    List MilestoneInput → List Milestone
  | [] => []
  | mi :: rest =>
    { id := eid + idx, escrow_id := eid, title := mi.title,
      description := mi.description,
      amount := mi.percentage / 100 * total,
      percentage := mi.percentage,
      order_index := idx, status := "pending" } ::
    buildMilestoneRows eid total (idx + 1) rest

/-- `POST /api/escrow/create`. -/
def createEscrow (s : Store) (actorId : Nat) (pname pdesc cemail : String)
    (total : ℚ) (ms : List MilestoneInput) (tok : String) (now : Nat) :
    ApiResult × Store :=
  if ms.isEmpty then (apiErr 400 "At least one milestone is required", s)
  else if 1/100 < mathAbs (sumPercent ms - 100) then
    (apiErr 400 "Milestone percentages must add up to 100%", s)
  else
    let eid := s.nextId
    let escrow : Escrow :=
      { id := eid, sme_id := actorId, customer_email := cemail,
        project_name := pname, project_description := pdesc,
        total_amount := total, status := "draft", invite_token := tok,
        created_at := some now }
    let rows := buildMilestoneRows eid total 1 ms
    let s1 : Store :=
      { s with escrows := s.escrows ++ [escrow],
               milestones := s.milestones ++ rows,
               activities := s.activities ++
                 [{ escrow_id := eid, user_id := actorId,
                    action_type := "escrow_created",
                    description := "Escrow project created" }],
               nextId := eid + 1 + ms.length }
    (apiOk 201, s1)

/-- `POST /api/escrow/:id/invite`.  The row is fetched with
`.eq('id', id).eq('sme_id', smeId)`; since `id` is the primary key this is
the id lookup followed by the owner check.  No status precondition. -/
def sendInvite (s : Store) (actorId escrowId now : Nat) : ApiResult × Store :=
  match findEscrow s escrowId with
  | none => (apiErr 404 "Escrow not found", s)
  | some e =>
    if e.sme_id ≠ actorId then (apiErr 404 "Escrow not found", s)
    else
      let es := updEscrow s.escrows escrowId
        (fun x => { x with status := "invited", invite_sent_at := some now })
      let acts := s.activities ++
        [{ escrow_id := escrowId, user_id := actorId,
           action_type := "invite_sent", description := "Invite sent" }]
      (apiOk 200, { s with escrows := es, activities := acts })

/-- `POST /api/escrow/accept/:token`. -/
def acceptInvite (s : Store) (actorId : Nat) (actorEmail tok : String)
    (now : Nat) : ApiResult × Store :=
  match findEscrowByToken s tok with
  | none => (apiErr 404 "Invalid or expired invite", s)
  | some e =>
    if e.customer_email ≠ actorEmail then
      (apiErr 403 "This invitation was sent to a different email address", s)
    else if e.status = "pending_deposit" ∨ e.status = "active" then
      (apiErr 400 "Invite already accepted", s)
    else
      let es := updEscrow s.escrows e.id
        (fun x => { x with customer_id := some actorId,
                           status := "pending_deposit",
                           invite_accepted_at := some now })
      let acts := s.activities ++
        [{ escrow_id := e.id, user_id := actorId,
           action_type := "invite_accepted",
           description := "Customer accepted escrow invite" }]
      (apiOk 200, { s with escrows := es, activities := acts })

/-- `POST /api/escrow/:id/deposit`.  Fetched with
`.eq('id', id).eq('customer_id', customerId)`; a non-matching customer reads
as not found (404), mirroring the source. -/
def depositFunds (s : Store) (actorId escrowId now : Nat) : ApiResult × Store :=
  match findEscrow s escrowId with
  | none => (apiErr 404 "Escrow not found", s)
  | some e =>
    if e.customer_id ≠ some actorId then (apiErr 404 "Escrow not found", s)
    else if e.status ≠ "pending_deposit" then
      (apiErr 400 "Escrow not ready for deposit", s)
    else
      let es := updEscrow s.escrows escrowId
        (fun x => { x with status := "active",
                           deposited_amount := e.total_amount,
                           deposited_at := some now })
      let acts := s.activities ++
        [{ escrow_id := escrowId, user_id := actorId,
           action_type := "funds_deposited",
           description := "Funds deposited" }]
      (apiOk 200, { s with escrows := es, activities := acts })

-- ==================== milestone routes (milestones-escrow.js) ====================

/-- `POST /api/milestones/:id/submit`.  Fetch joins the parent escrow; a
milestone whose parent is missing makes the join dereference throw (500). -/
def submitMilestone (s : Store) (actorId mid : Nat) (ed eu : Option String)
    (now : Nat) : ApiResult × Store :=
  match findMilestone s mid with
  | none => (apiErr 404 "Milestone not found", s)
  | some m =>
    match findEscrow s m.escrow_id with
    | none => (apiErr 500 "Failed to submit milestone", s)
    | some e =>
      if e.sme_id ≠ actorId then (apiErr 403 "Access denied", s)
      else if m.status ≠ "pending" ∧ m.status ≠ "rejected" then
        (apiErr 400 "Milestone already submitted", s)
      else
        let mls := updMilestone s.milestones mid
          (fun x => { x with status := "submitted",
                             evidence_description := ed,
                             evidence_url := eu,
                             submitted_at := some now,
                             submitted_by := some actorId })
        let acts := s.activities ++
          [{ escrow_id := m.escrow_id, milestone_id := some mid,
             user_id := actorId, action_type := "milestone_submitted",
             description := "Milestone submitted for approval" }]
        (apiOk 200, { s with milestones := mls, activities := acts })

/-- `POST /api/milestones/:id/approve`.  The milestone row is updated first,
then the escrow `released_amount` is accumulated from the values read at
fetch time (read-then-write).  `escrowWriteFails` models the external store
failing the second, separate write (`if (escrowError) throw ...`): the
handler then answers 500 with the milestone update already persisted. -/
def approveMilestone (s : Store) (actorId mid now : Nat)
    (escrowWriteFails : Bool) : ApiResult × Store :=
  match findMilestone s mid with
  | none => (apiErr 404 "Milestone not found", s)
  | some m =>
    match findEscrow s m.escrow_id with
    | none => (apiErr 500 "Failed to approve milestone", s)
    | some e =>
      if e.customer_id ≠ some actorId then (apiErr 403 "Access denied", s)
      else if m.status ≠ "submitted" then
        (apiErr 400 "Milestone not ready for approval", s)
      else
        let mls := updMilestone s.milestones mid
          (fun x => { x with status := "approved",
                             approved_at := some now,
                             approved_by := some actorId,
                             released_at := some now })
        let s1 : Store := { s with milestones := mls }
        if escrowWriteFails then (apiErr 500 "Failed to approve milestone", s1)
        else
          let newReleased := e.released_amount + m.amount
          let es := updEscrow s1.escrows m.escrow_id
            (fun x => { x with released_amount := newReleased })
          let acts := s1.activities ++
            [{ escrow_id := m.escrow_id, milestone_id := some mid,
               user_id := actorId, action_type := "milestone_approved",
               description := "Milestone approved - funds released" }]
          (apiOk 200, { s1 with escrows := es, activities := acts })

/-- `POST /api/milestones/:id/reject`.  The reason is required; there is no
precondition on the milestone's current status. -/
def rejectMilestone (s : Store) (actorId mid : Nat) (reason : Option String) :
    ApiResult × Store :=
  if reason = none then (apiErr 400 "Rejection reason required", s)
  else
    match findMilestone s mid with
    | none => (apiErr 404 "Milestone not found", s)
    | some m =>
      match findEscrow s m.escrow_id with
      | none => (apiErr 500 "Failed to reject milestone", s)
      | some e =>
        if e.customer_id ≠ some actorId then (apiErr 403 "Access denied", s)
        else
          let mls := updMilestone s.milestones mid
            (fun x => { x with status := "rejected",
                               rejection_reason := reason })
          let acts := s.activities ++
            [{ escrow_id := m.escrow_id, milestone_id := some mid,
               user_id := actorId, action_type := "milestone_rejected",
               description := "Milestone rejected" }]
          (apiOk 200, { s with milestones := mls, activities := acts })

-- ==================== lender review routes (verification-lender.js) ====================

/-- `POST /approve-loan/:loanId` behind `requireLenderRole` (role must be
`lender` or `admin`); requires loan status `requested`, reporting the
current status otherwise; records reviewer, timestamps, notes and
conditions, and appends a `loan_status_history` row. -/
def approveLoanVL (s : Store) (actor : Actor) (loanId : Nat)
    (notes conditions : Option String) (now : Nat) : ApiResult × Store :=
  if actor.role ≠ "lender" ∧ actor.role ≠ "admin" then
    (apiErr 403 "Lender access required", s)
  else
    match findLoan s loanId with
    | none => (apiErr 500 "Loan fetch failed", s)
    | some loan =>
      if loan.status ≠ "requested" then
        ({ code := 400, success := false,
           error := some "Loan is not pending approval",
           currentStatus := some loan.status }, s)
      else
        let ls := updLoan s.loans loanId
          (fun x => { x with status := "approved",
                             lender_id := some actor.id,
                             reviewed_at := some now,
                             approved_at := some now,
                             lender_notes := notes,
                             approval_conditions := conditions })
        let hist := s.loanHistory ++
          [{ loan_id := loanId, old_status := "requested",
             new_status := "approved", changed_by := actor.id,
             notes := notes }]
        (apiOk 200, { s with loans := ls, loanHistory := hist })

/-- `POST /reject-loan/:loanId` behind `requireLenderRole`; the reason is
required; same `requested` precondition; stores the reason in
`lender_notes` and appends a history row. -/
def rejectLoanVL (s : Store) (actor : Actor) (loanId : Nat)
    (reason : Option String) (now : Nat) : ApiResult × Store :=
  if actor.role ≠ "lender" ∧ actor.role ≠ "admin" then
    (apiErr 403 "Lender access required", s)
  else if reason = none then
    (apiErr 400 "Rejection reason is required", s)
  else
    match findLoan s loanId with
    | none => (apiErr 500 "Loan fetch failed", s)
    | some loan =>
      if loan.status ≠ "requested" then
        ({ code := 400, success := false,
           error := some "Loan is not pending approval",
           currentStatus := some loan.status }, s)
      else
        let ls := updLoan s.loans loanId
          (fun x => { x with status := "rejected",
                             lender_id := some actor.id,
                             reviewed_at := some now,
                             lender_notes := reason })
        let hist := s.loanHistory ++
          [{ loan_id := loanId, old_status := "requested",
             new_status := "rejected", changed_by := actor.id,
             notes := reason }]
        (apiOk 200, { s with loans := ls, loanHistory := hist })

/-- `POST /loan/:id/approve` from lender.js: the inline profile check
requires role exactly `lender` (admin is denied); the update has no status
precondition (`.update(...).eq('id', loanId)`, erroring only when the row
does not exist) and no status-history row is written. -/
def approveLoanLender (s : Store) (actor : Actor) (loanId : Nat)
    (conditions : Option String) (now : Nat) : ApiResult × Store :=
  if actor.role ≠ "lender" then
    (apiErr 403 "Access denied - lender role required", s)
  else
    match findLoan s loanId with
    | none => (apiErr 500 "Failed to approve loan", s)
    | some _ =>
      let ls := updLoan s.loans loanId
        (fun x => { x with status := "approved",
                           lender_id := some actor.id,
                           approval_conditions := conditions,
                           reviewed_at := some now })
      (apiOk 200, { s with loans := ls })

/-- `POST /loan/:id/reject` from lender.js: same role check, no reason
requirement, no status precondition, no history row. -/
def rejectLoanLender (s : Store) (actor : Actor) (loanId : Nat)
    (reason : Option String) (now : Nat) : ApiResult × Store :=
  if actor.role ≠ "lender" then
    (apiErr 403 "Access denied - lender role required", s)
  else
    match findLoan s loanId with
    | none => (apiErr 500 "Failed to reject loan", s)
    | some _ =>
      let ls := updLoan s.loans loanId
        (fun x => { x with status := "rejected",
                           lender_id := some actor.id,
                           lender_notes := reason,
                           reviewed_at := some now })
      (apiOk 200, { s with loans := ls })

-- ==================== mock verification (performMockVerification) ====================

/-- Asset fields read by `performMockVerification`.  `value` and
`description` are `Option`s: `none` models an absent (undefined/null)
column. -/
structure Asset where
  atype : String
  value : Option ℚ := none
  description : Option String := none
deriving DecidableEq

structure VerifyRules where
  minValue : ℚ
  maxValue : ℚ
deriving DecidableEq

def depositRules : VerifyRules := { minValue := 1000, maxValue := 1000000 }

def purchaseOrderRules : VerifyRules := { minValue := 5000, maxValue := 5000000 }

def invoiceRules : VerifyRules := { minValue := 1000, maxValue := 2000000 }

/-- `verificationRules[asset.type] || verificationRules.deposit`. -/
def rulesFor (t : String) : VerifyRules :=
  if t = "deposit" then depositRules
  else if t = "purchase_order" then purchaseOrderRules
  else if t = "invoice" then invoiceRules
  else depositRules

/-- JavaScript truthiness of an optional string column. -/
def strTruthy : Option String → Bool
  | none => false
  | some s => s != ""

/-- JavaScript truthiness of an optional numeric column. -/
def valTruthy : Option ℚ → Bool
  | none => false
  | some v => v != 0

/-- `rules.requiredFields.every(field => asset[field])` with
`requiredFields = ['description', 'value']`. -/
def hasRequiredFields (a : Asset) : Bool :=
  strTruthy a.description && valTruthy a.value

/-- `asset.value >= rules.minValue && asset.value <= rules.maxValue`
(comparisons against undefined are false). -/
def valueInRange (r : VerifyRules) (a : Asset) : Bool :=
  match a.value with
  | none => false
  | some v => decide (r.minValue ≤ v) && decide (v ≤ r.maxValue)

/-- `asset.description && asset.description.length >= 10`: when the
description is falsy the whole expression is a falsy NON-boolean, which the
`typeof check === 'boolean'` filter in `passed` skips; `none` models that
skipped case. -/
def hasValidDescription (a : Asset) : Option Bool :=
  match a.description with
  | none => none
  | some d => if d = "" then none else some (decide (10 ≤ d.length))

/-- `Object.values(checks).every(c => typeof c === 'boolean' ? c : true)`
over the three checks (the timestamp entry is a string and always skipped). -/
def verificationPassed (r : VerifyRules) (a : Asset) : Bool :=
  hasRequiredFields a && valueInRange r a && (hasValidDescription a).getD true

/-- Verification verdict returned to the caller. -/
structure Verdict where
  status : String
  confidence : ℚ
  riskScore : String
  error : Option String := none
deriving DecidableEq

/-- `performMockVerification(asset)` (the artificial latency is dropped). -/
def performMockVerification (a : Asset) : Verdict :=
  let r := rulesFor a.atype
  let passed := verificationPassed r a
  { status := if passed then "verified" else "verification_failed",
    confidence := if passed then 95/100 else 45/100,
    riskScore := if passed then "low" else "high",
    error := if passed then none
             else some "Asset did not meet verification criteria" }

/-- The combined pass condition as the claim words it: description and
value present (truthy), value within the rule range, description length at
least 10. -/
def checksOK (r : VerifyRules) (a : Asset) : Bool :=
  strTruthy a.description && valTruthy a.value && valueInRange r a &&
    (match a.description with
     | none => false
     | some d => decide (10 ≤ d.length))

/-- The two invoice assets named by the spec's verification examples. -/
def exInvoiceLow : Asset :=
  { atype := "invoice", value := some 500, description := some "abcdefghij" }

def exInvoiceOk : Asset :=
  { atype := "invoice", value := some 50000,
    description := some "abcdefghijklmnopqrst" }

/-- Create input whose percentages sum to 99.995: inside the create
tolerance but not equal to 100. -/
def c5input : List MilestoneInput :=
  [{ title := "a", percentage := 50 }, { title := "b", percentage := 9999/200 }]

-- ==================== concrete stores for runs and witnesses ====================

/-- A store holding one active escrow (id 1, sme 1, customer 7, total 1000)
with a single submitted milestone (id 2, amount 1000). -/
def wEscrow : Escrow :=
  { id := 1, sme_id := 1, customer_id := some 7, customer_email := "c",
    total_amount := 1000, deposited_amount := 1000, released_amount := 0,
    status := "active", invite_token := "t" }

def wMilestone : Milestone :=
  { id := 2, escrow_id := 1, title := "m", amount := 1000, percentage := 100,
    order_index := 1, status := "submitted" }

def wStore : Store :=
  { escrows := [wEscrow], milestones := [wMilestone], nextId := 3 }

/-- A store like `wStore` but with the milestone already approved. -/
def wMilestoneApproved : Milestone :=
  { id := 2, escrow_id := 1, title := "m", amount := 1000,
    percentage := 100, order_index := 1, status := "approved" }

def wStoreApproved : Store :=
  { escrows := [wEscrow], milestones := [wMilestoneApproved], nextId := 3 }

/-- Loan-review fixtures: a requested loan, a funded loan, and lender /
admin principals. -/
def wLoan : Loan := { id := 4, status := "requested" }

def wLoanStore : Store := { loans := [wLoan] }

def wLoanFunded : Loan := { id := 5, status := "funded" }

def wLoanStoreFunded : Store := { loans := [wLoanFunded] }

def wLender : Actor := { id := 8, role := "lender" }

def wAdmin : Actor := { id := 9, role := "admin" }

/-- The concrete operation chain used by the counterexamples:
create → invite → accept → deposit → submit → approve → reject (of the
already approved milestone) → resubmit → approve again. -/
def msInput : MilestoneInput := { title := "m", percentage := 100 }

def stCreate : Store :=
  (createEscrow emptyStore 1 "p" "d" "c" 1000 [msInput] "t" 0).2

def stInvited : Store := (sendInvite stCreate 1 1 0).2

def stAccepted : Store := (acceptInvite stInvited 7 "c" "t" 0).2

def stActive : Store := (depositFunds stAccepted 7 1 0).2

def stSubmitted : Store := (submitMilestone stActive 1 2 none none 0).2

def stApproved : Store := (approveMilestone stSubmitted 7 2 0 false).2

def stRejected : Store := (rejectMilestone stApproved 7 2 (some "r")).2

def stResubmitted : Store := (submitMilestone stRejected 1 2 none none 1).2

def stDoubled : Store := (approveMilestone stResubmitted 7 2 1 false).2

/-- The spec's escrow-level fund invariant, as a decidable check over a
store. -/
def releasedWithinTotal (s : Store) : Bool :=
  s.escrows.all (fun e => decide (e.released_amount ≤ e.total_amount))

-- ==================== generic list lemmas ====================

theorem find?_map_pres {α : Type} (p : α → Bool) (g : α → α)
    (hp : ∀ x, p (g x) = p x) :
    ∀ l : List α, (l.map g).find? p = (l.find? p).map g := by
  intro l
  induction l with
  | nil => rfl
  | cons x xs ih =>
    simp only [List.map_cons, List.find?_cons]
    rw [hp x]
    cases hx : p x
    · simpa using ih
    · rfl

/-- A `find?` hit survives an `UPDATE ... WHERE q` that rewrites the found
row with `f` (which preserves the search predicate `p`). -/
theorem find?_upd_pres {α : Type} (p q : α → Bool) (f : α → α)
    (hpf : ∀ x, p (f x) = p x) (l : List α) (x : α)
    (hx : l.find? p = some x) (hqx : q x = true) :
    (l.map (fun y => if q y then f y else y)).find? p = some (f x) := by
  have hg : ∀ y, p (if q y then f y else y) = p y := by
    intro y
    by_cases h : q y = true
    · simp [h, hpf]
    · simp [h]
  rw [find?_map_pres p _ hg, hx]
  simp [hqx]

theorem foldl_add_extract {α : Type} (g : α → ℚ) :
    ∀ (l : List α) (c : ℚ),
      l.foldl (fun a x => a + g x) c = c + l.foldl (fun a x => a + g x) 0 := by
  intro l
  induction l with
  | nil => intro c; simp
  | cons x xs ih =>
    intro c
    simp only [List.foldl_cons]
    rw [ih (c + g x), ih (0 + g x)]
    ring

-- ==================== milestone-row construction lemmas ====================

theorem buildMilestoneRows_props (eid : Nat) (total : ℚ) :
    ∀ (ms : List MilestoneInput) (idx i : Nat) (mi : MilestoneInput),
    ms.get? i = some mi →
    ∃ r, (buildMilestoneRows eid total idx ms).get? i = some r ∧
      r.amount = mi.percentage / 100 * total ∧
      r.order_index = idx + i ∧
      r.status = "pending" ∧
      r.percentage = mi.percentage := by
  intro ms
  induction ms with
  | nil => intro idx i mi h; simp at h
  | cons x rest ih =>
    intro idx i mi h
    cases i with
    | zero =>
      have hx : x = mi := by simpa using h
      subst hx
      exact ⟨_, rfl, rfl, (Nat.add_zero idx).symm, rfl, rfl⟩
    | succ j =>
      have h' : rest.get? j = some mi := by simpa using h
      obtain ⟨r, hg, ha, ho, hs, hp⟩ := ih (idx + 1) j mi h'
      refine ⟨r, ?_, ha, ?_, hs, hp⟩
      · simpa [buildMilestoneRows] using hg
      · rw [ho]; omega

theorem buildMilestoneRows_sum (eid : Nat) (total : ℚ) :
    ∀ (ms : List MilestoneInput) (idx : Nat),
    sumAmounts (buildMilestoneRows eid total idx ms) =
      sumPercent ms / 100 * total := by
  intro ms
  induction ms with
  | nil => intro idx; simp [buildMilestoneRows, sumAmounts, sumPercent]
  | cons x rest ih =>
    intro idx
    unfold sumAmounts sumPercent
    simp only [buildMilestoneRows, List.foldl_cons]
    rw [foldl_add_extract (fun m : Milestone => m.amount),
        foldl_add_extract (fun m : MilestoneInput => m.percentage)]
    have ihx := ih (idx + 1)
    unfold sumAmounts sumPercent at ihx
    rw [ihx]
    ring

theorem mathAbs_eq_abs (q : ℚ) : mathAbs q = |q| := by
  unfold mathAbs
  rcases lt_or_ge q 0 with h | h
  · rw [if_pos h, abs_of_neg h]
  · rw [if_neg (not_lt.mpr h), abs_of_nonneg h]

theorem verificationPassed_eq_checksOK (r : VerifyRules) (a : Asset) :
    verificationPassed r a = checksOK r a := by
  unfold verificationPassed checksOK hasRequiredFields hasValidDescription strTruthy
  cases hd : a.description with
  | none => simp
  | some d =>
    by_cases h0 : d = ""
    · simp [h0]
    · simp [h0, Bool.and_assoc]

-- ==================== claim theorems ====================

/-- Claim C8: `performMockVerification` returns verdict `verified` with
confidence 0.95 and risk `low` exactly when description and value are
present, the value lies within the asset type's range, and the description
length is at least 10; otherwise it returns `verification_failed` with
confidence 0.45, risk `high`, and a non-null explanatory error. -/
theorem c8_mock_verification_verdict :
    ∀ a : Asset,
    (a.atype = "deposit" ∨ a.atype = "purchase_order" ∨ a.atype = "invoice") →
    ( (performMockVerification a =
        { status := "verified", confidence := 95/100, riskScore := "low",
          error := none }) ↔ checksOK (rulesFor a.atype) a = true ) ∧
    ( checksOK (rulesFor a.atype) a = false →
      performMockVerification a =
        { status := "verification_failed", confidence := 45/100,
          riskScore := "high",
          error := some "Asset did not meet verification criteria" } ) := by
  intro a _
  have hpe := verificationPassed_eq_checksOK (rulesFor a.atype) a
  refine ⟨⟨?_, ?_⟩, ?_⟩
  · intro h
    cases hp : verificationPassed (rulesFor a.atype) a with
    | true => rw [← hpe]; exact hp
    | false => simp [performMockVerification, hp] at h
  · intro h
    have hp : verificationPassed (rulesFor a.atype) a = true := by
      rw [hpe]; exact h
    simp [performMockVerification, hp]
  · intro h
    have hp : verificationPassed (rulesFor a.atype) a = false := by
      rw [hpe]; exact h
    simp [performMockVerification, hp]

/-- Witness for C8: the invoice with value 500 fails verification, the
invoice with value 50000 and a 20-character description verifies with
confidence 0.95. -/
theorem c8_mock_verification_verdict_witness :
    performMockVerification exInvoiceLow =
      { status := "verification_failed", confidence := 45/100,
        riskScore := "high",
        error := some "Asset did not meet verification criteria" } ∧
    performMockVerification exInvoiceOk =
      { status := "verified", confidence := 95/100, riskScore := "low",
        error := none } :=
  ⟨(c8_mock_verification_verdict exInvoiceLow (Or.inr (Or.inr rfl))).2
      (by decide),
   (c8_mock_verification_verdict exInvoiceOk (Or.inr (Or.inr rfl))).1.mpr
      (by decide)⟩

/-- Claim C10: for an asset type outside deposit / purchase_order / invoice,
`performMockVerification` silently falls back to the deposit rule set and
produces a normal verdict under those thresholds. -/
theorem c10_unknown_type_fallback :
    ∀ a : Asset, a.atype ≠ "deposit" → a.atype ≠ "purchase_order" →
      a.atype ≠ "invoice" →
    rulesFor a.atype = depositRules ∧
    performMockVerification a =
      performMockVerification { a with atype := "deposit" } ∧
    (performMockVerification a).status =
      (if verificationPassed depositRules a then "verified"
       else "verification_failed") := by
  intro a h1 h2 h3
  have hr : rulesFor a.atype = depositRules := by simp [rulesFor, h1, h2, h3]
  refine ⟨hr, ?_, ?_⟩
  · unfold performMockVerification
    rw [hr]
    have hd : rulesFor (({ a with atype := "deposit" } : Asset)).atype =
        depositRules := by simp [rulesFor]
    rw [hd]
    rfl
  · unfold performMockVerification
    rw [hr]

/-- Witness for C10 at the unknown type "collateral". -/
theorem c10_unknown_type_fallback_witness :
    rulesFor "collateral" = depositRules ∧
    (performMockVerification
      { atype := "collateral", value := some 5000,
        description := some "abcdefghij" }).status = "verified" := by
  have h := c10_unknown_type_fallback
    { atype := "collateral", value := some 5000,
      description := some "abcdefghij" }
    (by decide) (by decide) (by decide)
  refine ⟨h.1, ?_⟩
  rw [h.2.2]
  decide

/-- Claim C4: a create request with an empty milestone list, or whose
percentages sum to a value outside [99.99, 100.01], fails with a 400
`ValidationError` and leaves the store unchanged. -/
theorem c4_create_validation :
    ∀ (s : Store) (actorId : Nat) (pname pdesc cemail : String) (total : ℚ)
      (ms : List MilestoneInput) (tok : String) (now : Nat),
    (ms = [] ∨ sumPercent ms < 9999/100 ∨ 10001/100 < sumPercent ms) →
    (createEscrow s actorId pname pdesc cemail total ms tok now).1.code = 400 ∧
    (createEscrow s actorId pname pdesc cemail total ms tok now).1.success
      = false ∧
    (createEscrow s actorId pname pdesc cemail total ms tok now).2 = s := by
  intro s actorId pname pdesc cemail total ms tok now h
  by_cases hemp : ms.isEmpty = true
  · have hEq : createEscrow s actorId pname pdesc cemail total ms tok now =
        (apiErr 400 "At least one milestone is required", s) := by
      unfold createEscrow
      rw [if_pos hemp]
    rw [hEq]
    exact ⟨rfl, rfl, rfl⟩
  · have hms : ¬ ms = [] := by
      intro hh
      subst hh
      simp at hemp
    have hsum : sumPercent ms < 9999/100 ∨ 10001/100 < sumPercent ms := by
      rcases h with h | h | h
      · exact absurd h hms
      · exact Or.inl h
      · exact Or.inr h
    have habs : 1/100 < mathAbs (sumPercent ms - 100) := by
      rw [mathAbs_eq_abs, lt_abs]
      rcases hsum with h | h
      · right; linarith
      · left; linarith
    have hEq : createEscrow s actorId pname pdesc cemail total ms tok now =
        (apiErr 400 "Milestone percentages must add up to 100%", s) := by
      unfold createEscrow
      rw [if_neg hemp, if_pos habs]
    rw [hEq]
    exact ⟨rfl, rfl, rfl⟩

/-- Witness for C4: a single milestone of 50% is rejected with 400 and no
write. -/
theorem c4_create_validation_witness :
    (createEscrow emptyStore 1 "p" "d" "c" 1000
      [{ title := "a", percentage := 50 }] "t" 0).1.code = 400 ∧
    (createEscrow emptyStore 1 "p" "d" "c" 1000
      [{ title := "a", percentage := 50 }] "t" 0).1.success = false ∧
    (createEscrow emptyStore 1 "p" "d" "c" 1000
      [{ title := "a", percentage := 50 }] "t" 0).2 = emptyStore :=
  c4_create_validation emptyStore 1 "p" "d" "c" 1000
    [{ title := "a", percentage := 50 }] "t" 0
    (Or.inr (Or.inl (by norm_num [sumPercent])))

/-- Claim C5 (amended): on a successful create, the i-th persisted
milestone row carries amount = percentage/100 × total, 1-based
order_index, and status `pending`; the row amounts sum to
(Σ percentage)/100 × total, and the percentage sum is 100 only up to the
±0.01 create tolerance. -/
theorem c5_created_milestone_rows :
    ∀ (s : Store) (actorId : Nat) (pname pdesc cemail : String) (total : ℚ)
      (ms : List MilestoneInput) (tok : String) (now : Nat),
    (createEscrow s actorId pname pdesc cemail total ms tok now).1.success
      = true →
    (∀ i mi, ms.get? i = some mi →
      ∃ r, (((createEscrow s actorId pname pdesc cemail total ms tok
              now).2.milestones.drop s.milestones.length).get? i = some r) ∧
        r.amount = mi.percentage / 100 * total ∧
        r.order_index = i + 1 ∧
        r.status = "pending" ∧
        r.percentage = mi.percentage) ∧
    sumAmounts ((createEscrow s actorId pname pdesc cemail total ms tok
        now).2.milestones.drop s.milestones.length) =
      sumPercent ms / 100 * total ∧
    mathAbs (sumPercent ms - 100) ≤ 1/100 := by
  intro s actorId pname pdesc cemail total ms tok now hSucc
  by_cases hemp : ms.isEmpty = true
  · exfalso
    have hEq : createEscrow s actorId pname pdesc cemail total ms tok now =
        (apiErr 400 "At least one milestone is required", s) := by
      unfold createEscrow
      rw [if_pos hemp]
    rw [hEq] at hSucc
    simp [apiErr] at hSucc
  by_cases habs : 1/100 < mathAbs (sumPercent ms - 100)
  · exfalso
    have hEq : createEscrow s actorId pname pdesc cemail total ms tok now =
        (apiErr 400 "Milestone percentages must add up to 100%", s) := by
      unfold createEscrow
      rw [if_neg hemp, if_pos habs]
    rw [hEq] at hSucc
    simp [apiErr] at hSucc
  have hEq : (createEscrow s actorId pname pdesc cemail total ms tok
      now).2.milestones =
      s.milestones ++ buildMilestoneRows s.nextId total 1 ms := by
    unfold createEscrow
    rw [if_neg hemp, if_neg habs]
  refine ⟨?_, ?_, not_lt.mp habs⟩
  · intro i mi hmi
    rw [hEq, List.drop_left]
    obtain ⟨r, hg, ha, ho, hs, hp⟩ :=
      buildMilestoneRows_props s.nextId total ms 1 i mi hmi
    exact ⟨r, hg, ha, by rw [ho, Nat.add_comm], hs, hp⟩
  · rw [hEq, List.drop_left]
    exact buildMilestoneRows_sum s.nextId total ms 1

/-- Witness for C5 at the spec's example: total 10000, milestones
[50, 30, 20]. -/
theorem c5_created_milestone_rows_witness :
    (createEscrow emptyStore 1 "p" "d" "c" 10000
      [{ title := "a", percentage := 50 }, { title := "b", percentage := 30 },
       { title := "c", percentage := 20 }] "t" 0).1.success = true ∧
    sumAmounts ((createEscrow emptyStore 1 "p" "d" "c" 10000
      [{ title := "a", percentage := 50 }, { title := "b", percentage := 30 },
       { title := "c", percentage := 20 }] "t" 0).2.milestones.drop 0) =
      sumPercent [{ title := "a", percentage := 50 },
        { title := "b", percentage := 30 },
        { title := "c", percentage := 20 }] / 100 * 10000 :=
  ⟨by norm_num [createEscrow, sumPercent, emptyStore, apiOk, mathAbs],
   (c5_created_milestone_rows emptyStore 1 "p" "d" "c" 10000
      [{ title := "a", percentage := 50 }, { title := "b", percentage := 30 },
       { title := "c", percentage := 20 }] "t" 0
      (by norm_num [createEscrow, sumPercent, emptyStore, apiOk,
        mathAbs])).2.1⟩

/-- Counterexample for C5 as stated: create succeeds although the persisted
percentages sum to 99.995 ≠ 100 and the amounts sum to 9999.5 ≠ the
total_amount 10000. -/
theorem c5_counterexample :
    (createEscrow emptyStore 1 "p" "d" "c" 10000 c5input "t" 0).1.success
      = true ∧
    sumPercent c5input ≠ 100 ∧
    sumAmounts ((createEscrow emptyStore 1 "p" "d" "c" 10000 c5input "t"
        0).2.milestones) ≠ 10000 := by
  refine ⟨?_, ?_, ?_⟩ <;>
    norm_num [createEscrow, c5input, sumPercent, sumAmounts,
      buildMilestoneRows, emptyStore, mathAbs, apiOk]

-- ==================== evaluation of the concrete operation chain ====================

theorem stCreate_eq : stCreate =
    { escrows :=
        [{ id := 1, sme_id := 1, customer_email := "c",
           project_name := "p", project_description := "d",
           total_amount := 1000, status := "draft", invite_token := "t",
           created_at := some 0 }],
      milestones :=
        [{ id := 2, escrow_id := 1, title := "m",
           amount := 1000, percentage := 100, order_index := 1,
           status := "pending" }],
      activities :=
        [{ escrow_id := 1, user_id := 1,
           action_type := "escrow_created",
           description := "Escrow project created" }],
      nextId := 3 } := by
  norm_num [stCreate, createEscrow, emptyStore, msInput, sumPercent,
    buildMilestoneRows, mathAbs, apiOk]

theorem stInvited_eq : stInvited =
    { escrows :=
        [{ id := 1, sme_id := 1, customer_email := "c",
           project_name := "p", project_description := "d",
           total_amount := 1000, status := "invited", invite_token := "t",
           invite_sent_at := some 0, created_at := some 0 }],
      milestones :=
        [{ id := 2, escrow_id := 1, title := "m",
           amount := 1000, percentage := 100, order_index := 1,
           status := "pending" }],
      activities :=
        [{ escrow_id := 1, user_id := 1,
           action_type := "escrow_created",
           description := "Escrow project created" },
         { escrow_id := 1, user_id := 1,
           action_type := "invite_sent", description := "Invite sent" }],
      nextId := 3 } := by
  rw [stInvited, stCreate_eq]
  norm_num [sendInvite, findEscrow, updEscrow, apiOk, List.find?]

theorem stAccepted_eq : stAccepted =
    { escrows :=
        [{ id := 1, sme_id := 1, customer_id := some 7,
           customer_email := "c",
           project_name := "p", project_description := "d",
           total_amount := 1000, status := "pending_deposit",
           invite_token := "t",
           invite_sent_at := some 0, invite_accepted_at := some 0,
           created_at := some 0 }],
      milestones :=
        [{ id := 2, escrow_id := 1, title := "m",
           amount := 1000, percentage := 100, order_index := 1,
           status := "pending" }],
      activities :=
        [{ escrow_id := 1, user_id := 1,
           action_type := "escrow_created",
           description := "Escrow project created" },
         { escrow_id := 1, user_id := 1,
           action_type := "invite_sent", description := "Invite sent" },
         { escrow_id := 1, user_id := 7,
           action_type := "invite_accepted",
           description := "Customer accepted escrow invite" }],
      nextId := 3 } := by
  rw [stAccepted, stInvited_eq]
  simp [acceptInvite, findEscrowByToken, updEscrow, apiOk, List.find?]

theorem stActive_eq : stActive =
    { escrows :=
        [{ id := 1, sme_id := 1, customer_id := some 7,
           customer_email := "c",
           project_name := "p", project_description := "d",
           total_amount := 1000, deposited_amount := 1000,
           status := "active", invite_token := "t",
           invite_sent_at := some 0, invite_accepted_at := some 0,
           deposited_at := some 0, created_at := some 0 }],
      milestones :=
        [{ id := 2, escrow_id := 1, title := "m",
           amount := 1000, percentage := 100, order_index := 1,
           status := "pending" }],
      activities :=
        [{ escrow_id := 1, user_id := 1,
           action_type := "escrow_created",
           description := "Escrow project created" },
         { escrow_id := 1, user_id := 1,
           action_type := "invite_sent", description := "Invite sent" },
         { escrow_id := 1, user_id := 7,
           action_type := "invite_accepted",
           description := "Customer accepted escrow invite" },
         { escrow_id := 1, user_id := 7,
           action_type := "funds_deposited",
           description := "Funds deposited" }],
      nextId := 3 } := by
  rw [stActive, stAccepted_eq]
  simp [depositFunds, findEscrow, updEscrow, apiOk, List.find?]

theorem stSubmitted_eq : stSubmitted =
    { escrows :=
        [{ id := 1, sme_id := 1, customer_id := some 7,
           customer_email := "c",
           project_name := "p", project_description := "d",
           total_amount := 1000, deposited_amount := 1000,
           status := "active", invite_token := "t",
           invite_sent_at := some 0, invite_accepted_at := some 0,
           deposited_at := some 0, created_at := some 0 }],
      milestones :=
        [{ id := 2, escrow_id := 1, title := "m",
           amount := 1000, percentage := 100, order_index := 1,
           status := "submitted", submitted_at := some 0,
           submitted_by := some 1 }],
      activities :=
        [{ escrow_id := 1, user_id := 1,
           action_type := "escrow_created",
           description := "Escrow project created" },
         { escrow_id := 1, user_id := 1,
           action_type := "invite_sent", description := "Invite sent" },
         { escrow_id := 1, user_id := 7,
           action_type := "invite_accepted",
           description := "Customer accepted escrow invite" },
         { escrow_id := 1, user_id := 7,
           action_type := "funds_deposited",
           description := "Funds deposited" },
         { escrow_id := 1, milestone_id := some 2, user_id := 1,
           action_type := "milestone_submitted",
           description := "Milestone submitted for approval" }],
      nextId := 3 } := by
  rw [stSubmitted, stActive_eq]
  simp [submitMilestone, findMilestone, findEscrow, updMilestone, apiOk,
    List.find?]

theorem stApproved_eq : stApproved =
    { escrows :=
        [{ id := 1, sme_id := 1, customer_id := some 7,
           customer_email := "c",
           project_name := "p", project_description := "d",
           total_amount := 1000, deposited_amount := 1000,
           released_amount := 1000,
           status := "active", invite_token := "t",
           invite_sent_at := some 0, invite_accepted_at := some 0,
           deposited_at := some 0, created_at := some 0 }],
      milestones :=
        [{ id := 2, escrow_id := 1, title := "m",
           amount := 1000, percentage := 100, order_index := 1,
           status := "approved", submitted_at := some 0,
           submitted_by := some 1, approved_at := some 0,
           approved_by := some 7, released_at := some 0 }],
      activities :=
        [{ escrow_id := 1, user_id := 1,
           action_type := "escrow_created",
           description := "Escrow project created" },
         { escrow_id := 1, user_id := 1,
           action_type := "invite_sent", description := "Invite sent" },
         { escrow_id := 1, user_id := 7,
           action_type := "invite_accepted",
           description := "Customer accepted escrow invite" },
         { escrow_id := 1, user_id := 7,
           action_type := "funds_deposited",
           description := "Funds deposited" },
         { escrow_id := 1, milestone_id := some 2, user_id := 1,
           action_type := "milestone_submitted",
           description := "Milestone submitted for approval" },
         { escrow_id := 1, milestone_id := some 2, user_id := 7,
           action_type := "milestone_approved",
           description := "Milestone approved - funds released" }],
      nextId := 3 } := by
  rw [stApproved, stSubmitted_eq]
  simp [approveMilestone, findMilestone, findEscrow, updMilestone,
    updEscrow, apiOk, List.find?]

theorem stRejected_eq : stRejected =
    { escrows :=
        [{ id := 1, sme_id := 1, customer_id := some 7,
           customer_email := "c",
           project_name := "p", project_description := "d",
           total_amount := 1000, deposited_amount := 1000,
           released_amount := 1000,
           status := "active", invite_token := "t",
           invite_sent_at := some 0, invite_accepted_at := some 0,
           deposited_at := some 0, created_at := some 0 }],
      milestones :=
        [{ id := 2, escrow_id := 1, title := "m",
           amount := 1000, percentage := 100, order_index := 1,
           status := "rejected", submitted_at := some 0,
           submitted_by := some 1, approved_at := some 0,
           approved_by := some 7, released_at := some 0,
           rejection_reason := some "r" }],
      activities :=
        [{ escrow_id := 1, user_id := 1,
           action_type := "escrow_created",
           description := "Escrow project created" },
         { escrow_id := 1, user_id := 1,
           action_type := "invite_sent", description := "Invite sent" },
         { escrow_id := 1, user_id := 7,
           action_type := "invite_accepted",
           description := "Customer accepted escrow invite" },
         { escrow_id := 1, user_id := 7,
           action_type := "funds_deposited",
           description := "Funds deposited" },
         { escrow_id := 1, milestone_id := some 2, user_id := 1,
           action_type := "milestone_submitted",
           description := "Milestone submitted for approval" },
         { escrow_id := 1, milestone_id := some 2, user_id := 7,
           action_type := "milestone_approved",
           description := "Milestone approved - funds released" },
         { escrow_id := 1, milestone_id := some 2, user_id := 7,
           action_type := "milestone_rejected",
           description := "Milestone rejected" }],
      nextId := 3 } := by
  rw [stRejected, stApproved_eq]
  simp [rejectMilestone, findMilestone, findEscrow, updMilestone, apiOk,
    List.find?]

theorem stResubmitted_eq : stResubmitted =
    { escrows :=
        [{ id := 1, sme_id := 1, customer_id := some 7,
           customer_email := "c",
           project_name := "p", project_description := "d",
           total_amount := 1000, deposited_amount := 1000,
           released_amount := 1000,
           status := "active", invite_token := "t",
           invite_sent_at := some 0, invite_accepted_at := some 0,
           deposited_at := some 0, created_at := some 0 }],
      milestones :=
        [{ id := 2, escrow_id := 1, title := "m",
           amount := 1000, percentage := 100, order_index := 1,
           status := "submitted", submitted_at := some 1,
           submitted_by := some 1, approved_at := some 0,
           approved_by := some 7, released_at := some 0,
           rejection_reason := some "r" }],
      activities :=
        [{ escrow_id := 1, user_id := 1,
           action_type := "escrow_created",
           description := "Escrow project created" },
         { escrow_id := 1, user_id := 1,
           action_type := "invite_sent", description := "Invite sent" },
         { escrow_id := 1, user_id := 7,
           action_type := "invite_accepted",
           description := "Customer accepted escrow invite" },
         { escrow_id := 1, user_id := 7,
           action_type := "funds_deposited",
           description := "Funds deposited" },
         { escrow_id := 1, milestone_id := some 2, user_id := 1,
           action_type := "milestone_submitted",
           description := "Milestone submitted for approval" },
         { escrow_id := 1, milestone_id := some 2, user_id := 7,
           action_type := "milestone_approved",
           description := "Milestone approved - funds released" },
         { escrow_id := 1, milestone_id := some 2, user_id := 7,
           action_type := "milestone_rejected",
           description := "Milestone rejected" },
         { escrow_id := 1, milestone_id := some 2, user_id := 1,
           action_type := "milestone_submitted",
           description := "Milestone submitted for approval" }],
      nextId := 3 } := by
  rw [stResubmitted, stRejected_eq]
  simp [submitMilestone, findMilestone, findEscrow, updMilestone, apiOk,
    List.find?]

theorem stDoubled_eq : stDoubled =
    { escrows :=
        [{ id := 1, sme_id := 1, customer_id := some 7,
           customer_email := "c",
           project_name := "p", project_description := "d",
           total_amount := 1000, deposited_amount := 1000,
           released_amount := 2000,
           status := "active", invite_token := "t",
           invite_sent_at := some 0, invite_accepted_at := some 0,
           deposited_at := some 0, created_at := some 0 }],
      milestones :=
        [{ id := 2, escrow_id := 1, title := "m",
           amount := 1000, percentage := 100, order_index := 1,
           status := "approved", submitted_at := some 1,
           submitted_by := some 1, approved_at := some 1,
           approved_by := some 7, released_at := some 1,
           rejection_reason := some "r" }],
      activities :=
        [{ escrow_id := 1, user_id := 1,
           action_type := "escrow_created",
           description := "Escrow project created" },
         { escrow_id := 1, user_id := 1,
           action_type := "invite_sent", description := "Invite sent" },
         { escrow_id := 1, user_id := 7,
           action_type := "invite_accepted",
           description := "Customer accepted escrow invite" },
         { escrow_id := 1, user_id := 7,
           action_type := "funds_deposited",
           description := "Funds deposited" },
         { escrow_id := 1, milestone_id := some 2, user_id := 1,
           action_type := "milestone_submitted",
           description := "Milestone submitted for approval" },
         { escrow_id := 1, milestone_id := some 2, user_id := 7,
           action_type := "milestone_approved",
           description := "Milestone approved - funds released" },
         { escrow_id := 1, milestone_id := some 2, user_id := 7,
           action_type := "milestone_rejected",
           description := "Milestone rejected" },
         { escrow_id := 1, milestone_id := some 2, user_id := 1,
           action_type := "milestone_submitted",
           description := "Milestone submitted for approval" },
         { escrow_id := 1, milestone_id := some 2, user_id := 7,
           action_type := "milestone_approved",
           description := "Milestone approved - funds released" }],
      nextId := 3 } := by
  rw [stDoubled, stResubmitted_eq]
  simp [approveMilestone, findMilestone, findEscrow, updMilestone,
    updEscrow, apiOk, List.find?]
  norm_num

/-- Claim C1 (amended): a successful approveMilestone call by the escrow's
customer on a submitted milestone increases the escrow's released_amount
by exactly milestone.amount.  (The second half of the claim,
released_amount ≤ total_amount in every reachable state, is refuted by
the separate counterexample run: reject-after-approve allows a milestone
amount to be released twice.) -/
theorem c1_approve_releases_exact_amount :
    ∀ (s : Store) (actorId mid now : Nat) (m : Milestone) (e : Escrow),
    findMilestone s mid = some m →
    findEscrow s m.escrow_id = some e →
    e.customer_id = some actorId →
    m.status = "submitted" →
    (approveMilestone s actorId mid now false).1.success = true ∧
    findEscrow (approveMilestone s actorId mid now false).2 m.escrow_id =
      some { e with released_amount := e.released_amount + m.amount } := by
  intro s actorId mid now m e h1 h2 h3 h4
  have hne : ¬ e.customer_id ≠ some actorId := by simp [h3]
  have hns : ¬ m.status ≠ "submitted" := by simp [h4]
  unfold approveMilestone
  simp only [h1, h2]
  rw [if_neg hne, if_neg hns]
  simp only [Bool.false_eq_true, if_false]
  constructor
  · rfl
  · have h2' : List.find? (fun x : Escrow => x.id == m.escrow_id) s.escrows
        = some e := h2
    show List.find? (fun x : Escrow => x.id == m.escrow_id)
        (List.map (fun y : Escrow => if y.id == m.escrow_id then
            ({ y with released_amount := e.released_amount + m.amount } : Escrow)
          else y) s.escrows)
      = some { e with released_amount := e.released_amount + m.amount }
    have hq : (e.id == m.escrow_id) = true := by
      have hx := List.find?_some h2'
      simpa using hx
    exact find?_upd_pres (fun x : Escrow => x.id == m.escrow_id)
      (fun x : Escrow => x.id == m.escrow_id)
      (fun y : Escrow =>
        { y with released_amount := e.released_amount + m.amount })
      (fun _ => rfl) s.escrows e h2' hq

/-- Witness for C1 at the concrete submitted-milestone store. -/
theorem c1_approve_releases_exact_amount_witness :
    (approveMilestone wStore 7 2 5 false).1.success = true ∧
    findEscrow (approveMilestone wStore 7 2 5 false).2 wMilestone.escrow_id =
      some { wEscrow with
             released_amount := wEscrow.released_amount + wMilestone.amount } :=
  c1_approve_releases_exact_amount wStore 7 2 5 wMilestone wEscrow
    rfl rfl rfl rfl

/-- Counterexample for C1's invariant half: after approve, reject of the
approved milestone, resubmit and approve again — all successful operations
from the empty store — released_amount (2000) exceeds total_amount (1000). -/
theorem c1_approve_releases_exact_amount_counterexample :
    (rejectMilestone stApproved 7 2 (some "r")).1.success = true ∧
    (approveMilestone stResubmitted 7 2 1 false).1.success = true ∧
    releasedWithinTotal stApproved = true ∧
    releasedWithinTotal stDoubled = false := by
  refine ⟨?_, ?_, ?_, ?_⟩
  · rw [stApproved_eq]
    simp [rejectMilestone, findMilestone, findEscrow, apiOk, updMilestone,
      List.find?]
  · rw [stResubmitted_eq]
    simp [approveMilestone, findMilestone, findEscrow, apiOk, updMilestone,
      updEscrow, List.find?]
  · rw [stApproved_eq]
    norm_num [releasedWithinTotal, List.all]
  · rw [stDoubled_eq]
    norm_num [releasedWithinTotal, List.all]

/-- Id-keyed lookup after an id-keyed escrow update. -/
theorem findEscrowId_upd (l : List Escrow) (i : Nat) (f : Escrow → Escrow)
    (hid : ∀ x, (f x).id = x.id) (e : Escrow)
    (h : List.find? (fun x : Escrow => x.id == i) l = some e) :
    List.find? (fun x : Escrow => x.id == i) (updEscrow l i f) = some (f e) := by
  have hq : (e.id == i) = true := by
    have hx := List.find?_some h
    simpa using hx
  unfold updEscrow
  exact find?_upd_pres _ _ f (fun x => by rw [hid x]) l e h hq

/-- Token-keyed lookup after an id-keyed escrow update that preserves the
token. -/
theorem findEscrowTok_upd (l : List Escrow) (tok : String) (i : Nat)
    (f : Escrow → Escrow) (htok : ∀ x, (f x).invite_token = x.invite_token)
    (e : Escrow)
    (h : List.find? (fun x : Escrow => x.invite_token == tok) l = some e)
    (hq : (e.id == i) = true) :
    List.find? (fun x : Escrow => x.invite_token == tok) (updEscrow l i f) =
      some (f e) := by
  unfold updEscrow
  exact find?_upd_pres _ _ f (fun x => by rw [htok x]) l e h hq

/-- Id-keyed lookup after an id-keyed milestone update. -/
theorem findMilestoneId_upd (l : List Milestone) (i : Nat)
    (f : Milestone → Milestone) (hid : ∀ x, (f x).id = x.id) (m : Milestone)
    (h : List.find? (fun x : Milestone => x.id == i) l = some m) :
    List.find? (fun x : Milestone => x.id == i) (updMilestone l i f) =
      some (f m) := by
  have hq : (m.id == i) = true := by
    have hx := List.find?_some h
    simpa using hx
  unfold updMilestone
  exact find?_upd_pres _ _ f (fun x => by rw [hid x]) l m h hq

/-- Id-keyed lookup after an id-keyed loan update. -/
theorem findLoanId_upd (l : List Loan) (i : Nat) (f : Loan → Loan)
    (hid : ∀ x, (f x).id = x.id) (x0 : Loan)
    (h : List.find? (fun x : Loan => x.id == i) l = some x0) :
    List.find? (fun x : Loan => x.id == i) (updLoan l i f) = some (f x0) := by
  have hq : (x0.id == i) = true := by
    have hx := List.find?_some h
    simpa using hx
  unfold updLoan
  exact find?_upd_pres _ _ f (fun x => by rw [hid x]) l x0 h hq

/-- Claim C9: approveMilestone persists the milestone update and the escrow
update as two separate writes; in the execution where the escrow
released_amount write fails after the milestone write succeeded, the call
answers a 500 error while the milestone is already persisted as approved,
the escrow row is unchanged, and no activity row was written — the state
is not rolled back on error. -/
theorem c9_approve_not_atomic :
    ∀ (s : Store) (actorId mid now : Nat) (m : Milestone) (e : Escrow),
    findMilestone s mid = some m →
    findEscrow s m.escrow_id = some e →
    e.customer_id = some actorId →
    m.status = "submitted" →
    (approveMilestone s actorId mid now true).1.success = false ∧
    (approveMilestone s actorId mid now true).1.code = 500 ∧
    findMilestone (approveMilestone s actorId mid now true).2 mid =
      some { m with status := "approved",
                    approved_at := some now,
                    approved_by := some actorId,
                    released_at := some now } ∧
    findEscrow (approveMilestone s actorId mid now true).2 m.escrow_id
      = some e ∧
    (approveMilestone s actorId mid now true).2.activities = s.activities := by
  intro s actorId mid now m e h1 h2 h3 h4
  have hne : ¬ e.customer_id ≠ some actorId := by simp [h3]
  have hns : ¬ m.status ≠ "submitted" := by simp [h4]
  unfold approveMilestone
  simp only [h1, h2]
  rw [if_neg hne, if_neg hns]
  simp only [if_true]
  refine ⟨rfl, rfl, ?_, h2, by trivial⟩
  have h1' : List.find? (fun x : Milestone => x.id == mid) s.milestones
      = some m := h1
  exact findMilestoneId_upd s.milestones mid
    (fun x => { x with status := "approved",
                       approved_at := some now,
                       approved_by := some actorId,
                       released_at := some now })
    (fun _ => rfl) m h1'

/-- Witness for C9 at the concrete submitted-milestone store. -/
theorem c9_approve_not_atomic_witness :
    (approveMilestone wStore 7 2 5 true).1.success = false ∧
    (approveMilestone wStore 7 2 5 true).1.code = 500 ∧
    findMilestone (approveMilestone wStore 7 2 5 true).2 2 =
      some { wMilestone with status := "approved",
                             approved_at := some 5,
                             approved_by := some 7,
                             released_at := some 5 } ∧
    findEscrow (approveMilestone wStore 7 2 5 true).2 wMilestone.escrow_id
      = some wEscrow ∧
    (approveMilestone wStore 7 2 5 true).2.activities = wStore.activities :=
  c9_approve_not_atomic wStore 7 2 5 wMilestone wEscrow rfl rfl rfl rfl

/-- Claim C2 (amended): submitMilestone succeeds only on a pending or
rejected milestone and makes it submitted; approveMilestone succeeds only
on a submitted milestone and makes it approved; but `approved` is NOT
terminal: rejectMilestone enforces no status precondition, so the
customer can reject an approved milestone, moving it to `rejected`. -/
theorem c2_milestone_transitions :
    (∀ (s : Store) (a mid : Nat) (ed eu : Option String) (now : Nat)
       (m : Milestone),
      findMilestone s mid = some m →
      (submitMilestone s a mid ed eu now).1.success = true →
      (m.status = "pending" ∨ m.status = "rejected") ∧
      findMilestone (submitMilestone s a mid ed eu now).2 mid =
        some { m with status := "submitted",
                      evidence_description := ed,
                      evidence_url := eu,
                      submitted_at := some now,
                      submitted_by := some a }) ∧
    (∀ (s : Store) (a mid now : Nat) (m : Milestone),
      findMilestone s mid = some m →
      (approveMilestone s a mid now false).1.success = true →
      m.status = "submitted" ∧
      findMilestone (approveMilestone s a mid now false).2 mid =
        some { m with status := "approved",
                      approved_at := some now,
                      approved_by := some a,
                      released_at := some now }) ∧
    (∀ (s : Store) (a mid : Nat) (reason : String) (m : Milestone)
       (e : Escrow),
      findMilestone s mid = some m →
      findEscrow s m.escrow_id = some e →
      e.customer_id = some a →
      m.status = "approved" →
      (rejectMilestone s a mid (some reason)).1.success = true ∧
      findMilestone (rejectMilestone s a mid (some reason)).2 mid =
        some { m with status := "rejected",
                      rejection_reason := some reason }) := by
  refine ⟨?_, ?_, ?_⟩
  · intro s a mid ed eu now m h1 hs
    unfold submitMilestone at hs ⊢
    rw [h1] at hs ⊢
    dsimp only at hs ⊢
    rcases Option.eq_none_or_eq_some (findEscrow s m.escrow_id) with he | ⟨e, he⟩
    · rw [he] at hs
      dsimp only at hs
      simp [apiErr] at hs
    · rw [he] at hs ⊢
      dsimp only at hs ⊢
      by_cases ha : e.sme_id ≠ a
      · rw [if_pos ha] at hs; simp [apiErr] at hs
      · rw [if_neg ha] at hs ⊢
        by_cases hst : m.status ≠ "pending" ∧ m.status ≠ "rejected"
        · rw [if_pos hst] at hs; simp [apiErr] at hs
        · rw [if_neg hst] at hs ⊢
          refine ⟨?_, ?_⟩
          · rcases not_and_or.mp hst with h | h
            · exact Or.inl (not_not.mp h)
            · exact Or.inr (not_not.mp h)
          · have h1' : List.find? (fun x : Milestone => x.id == mid)
                s.milestones = some m := h1
            exact findMilestoneId_upd s.milestones mid
              (fun x => { x with status := "submitted",
                                 evidence_description := ed,
                                 evidence_url := eu,
                                 submitted_at := some now,
                                 submitted_by := some a })
              (fun _ => rfl) m h1'
  · intro s a mid now m h1 hs
    unfold approveMilestone at hs ⊢
    rw [h1] at hs ⊢
    dsimp only at hs ⊢
    rcases Option.eq_none_or_eq_some (findEscrow s m.escrow_id) with he | ⟨e, he⟩
    · rw [he] at hs
      dsimp only at hs
      simp [apiErr] at hs
    · rw [he] at hs ⊢
      dsimp only at hs ⊢
      by_cases ha : e.customer_id ≠ some a
      · rw [if_pos ha] at hs; simp [apiErr] at hs
      · rw [if_neg ha] at hs ⊢
        by_cases hst : m.status ≠ "submitted"
        · rw [if_pos hst] at hs; simp [apiErr] at hs
        · rw [if_neg hst] at hs ⊢
          refine ⟨not_not.mp hst, ?_⟩
          have h1' : List.find? (fun x : Milestone => x.id == mid)
              s.milestones = some m := h1
          exact findMilestoneId_upd s.milestones mid
            (fun x => { x with status := "approved",
                               approved_at := some now,
                               approved_by := some a,
                               released_at := some now })
            (fun _ => rfl) m h1'
  · intro s a mid reason m e h1 h2 h3 _
    have hne : ¬ e.customer_id ≠ some a := by simp [h3]
    unfold rejectMilestone
    rw [if_neg (by simp : ¬ (some reason = none))]
    simp only [h1, h2]
    rw [if_neg hne]
    refine ⟨rfl, ?_⟩
    have h1' : List.find? (fun x : Milestone => x.id == mid)
        s.milestones = some m := h1
    exact findMilestoneId_upd s.milestones mid
      (fun x => { x with status := "rejected",
                         rejection_reason := some reason })
      (fun _ => rfl) m h1'

/-- Witness for C2: rejecting the already-approved milestone of the
concrete store succeeds and flips it to rejected. -/
theorem c2_milestone_transitions_witness :
    (rejectMilestone wStoreApproved 7 2 (some "bad")).1.success = true ∧
    findMilestone (rejectMilestone wStoreApproved 7 2 (some "bad")).2 2 =
      some { wMilestoneApproved with status := "rejected",
                                     rejection_reason := some "bad" } :=
  c2_milestone_transitions.2.2 wStoreApproved 7 2 "bad" wMilestoneApproved
    wEscrow rfl rfl rfl rfl

/-- Counterexample for C2 as stated: in the reachable state `stApproved`
the milestone is approved, yet rejectMilestone succeeds and changes its
status to rejected — `approved` is not terminal. -/
theorem c2_milestone_transitions_counterexample :
    (findMilestone stApproved 2).map Milestone.status = some "approved" ∧
    (rejectMilestone stApproved 7 2 (some "r")).1.success = true ∧
    (findMilestone stRejected 2).map Milestone.status = some "rejected" := by
  refine ⟨?_, ?_, ?_⟩
  · rw [stApproved_eq]
    simp [findMilestone, List.find?]
  · rw [stApproved_eq]
    simp [rejectMilestone, findMilestone, findEscrow, apiOk, updMilestone,
      List.find?]
  · rw [stRejected_eq]
    simp [findMilestone, List.find?]

/-- Claim C3 (amended): sendInvite (owner check only, NO status
precondition) always produces status `invited`; acceptInvite succeeds
exactly when the escrow is not already in `pending_deposit` or `active`
and produces `pending_deposit`; depositFunds succeeds exactly on
`pending_deposit` and produces `active`.  Because sendInvite has no status
precondition, `active` is not terminal (see the counterexample). -/
theorem c3_escrow_transitions :
    (∀ (s : Store) (a i now : Nat) (e : Escrow),
      findEscrow s i = some e → e.sme_id = a →
      (sendInvite s a i now).1.success = true ∧
      findEscrow (sendInvite s a i now).2 i =
        some { e with status := "invited", invite_sent_at := some now }) ∧
    (∀ (s : Store) (a : Nat) (email tok : String) (now : Nat) (e : Escrow),
      findEscrowByToken s tok = some e → e.customer_email = email →
      ((acceptInvite s a email tok now).1.success = true ↔
        (e.status ≠ "pending_deposit" ∧ e.status ≠ "active")) ∧
      (e.status ≠ "pending_deposit" → e.status ≠ "active" →
        findEscrowByToken (acceptInvite s a email tok now).2 tok =
          some { e with customer_id := some a,
                        status := "pending_deposit",
                        invite_accepted_at := some now })) ∧
    (∀ (s : Store) (a i now : Nat) (e : Escrow),
      findEscrow s i = some e → e.customer_id = some a →
      ((depositFunds s a i now).1.success = true ↔
        e.status = "pending_deposit") ∧
      (e.status = "pending_deposit" →
        findEscrow (depositFunds s a i now).2 i =
          some { e with status := "active",
                        deposited_amount := e.total_amount,
                        deposited_at := some now })) := by
  refine ⟨?_, ?_, ?_⟩
  · intro s a i now e h1 h2
    have hne : ¬ e.sme_id ≠ a := by simp [h2]
    unfold sendInvite
    rw [h1]
    dsimp only
    rw [if_neg hne]
    refine ⟨rfl, ?_⟩
    have h1' : List.find? (fun x : Escrow => x.id == i) s.escrows
        = some e := h1
    exact findEscrowId_upd s.escrows i
      (fun x => { x with status := "invited", invite_sent_at := some now })
      (fun _ => rfl) e h1'
  · intro s a email tok now e hTok hEmail
    have hne : ¬ e.customer_email ≠ email := by simp [hEmail]
    unfold acceptInvite
    rw [hTok]
    dsimp only
    rw [if_neg hne]
    by_cases hst : e.status = "pending_deposit" ∨ e.status = "active"
    · rw [if_pos hst]
      refine ⟨?_, ?_⟩
      · constructor
        · intro h
          simp [apiErr] at h
        · intro ⟨hh1, hh2⟩
          rcases hst with h | h
          · exact absurd h hh1
          · exact absurd h hh2
      · intro hh1 hh2
        rcases hst with h | h
        · exact absurd h hh1
        · exact absurd h hh2
    · rw [if_neg hst]
      push_neg at hst
      refine ⟨?_, ?_⟩
      · constructor
        · intro _
          exact hst
        · intro _
          rfl
      · intro _ _
        have hTok' : List.find? (fun x : Escrow => x.invite_token == tok)
            s.escrows = some e := hTok
        have hq : (e.id == e.id) = true := by simp
        exact findEscrowTok_upd s.escrows tok e.id
          (fun x => { x with customer_id := some a,
                             status := "pending_deposit",
                             invite_accepted_at := some now })
          (fun _ => rfl) e hTok' hq
  · intro s a i now e h1 h2
    have hne : ¬ e.customer_id ≠ some a := by simp [h2]
    unfold depositFunds
    rw [h1]
    dsimp only
    rw [if_neg hne]
    by_cases hst : e.status ≠ "pending_deposit"
    · rw [if_pos hst]
      refine ⟨?_, ?_⟩
      · constructor
        · intro h
          simp [apiErr] at h
        · intro h
          exact absurd h hst
      · intro h
        exact absurd h hst
    · rw [if_neg hst]
      refine ⟨?_, ?_⟩
      · constructor
        · intro _
          exact not_not.mp hst
        · intro _
          rfl
      · intro _
        have h1' : List.find? (fun x : Escrow => x.id == i) s.escrows
            = some e := h1
        exact findEscrowId_upd s.escrows i
          (fun x => { x with status := "active",
                             deposited_amount := e.total_amount,
                             deposited_at := some now })
          (fun _ => rfl) e h1'

/-- Witness for C3: re-inviting the already-active concrete escrow
succeeds and moves it back to `invited`, and a deposit on a
pending_deposit escrow activates it. -/
theorem c3_escrow_transitions_witness :
    ((sendInvite wStore 1 1 9).1.success = true ∧
      findEscrow (sendInvite wStore 1 1 9).2 1 =
        some { wEscrow with status := "invited",
                            invite_sent_at := some 9 }) :=
  c3_escrow_transitions.1 wStore 1 1 9 wEscrow rfl rfl

/-- Counterexample for C3 as stated: the reachable state `stActive` has
the escrow in the terminal status `active`, yet sendInvite succeeds and
moves it back to `invited`. -/
theorem c3_escrow_transitions_counterexample :
    (findEscrow stActive 1).map Escrow.status = some "active" ∧
    (sendInvite stActive 1 1 1).1.success = true ∧
    (findEscrow (sendInvite stActive 1 1 1).2 1).map Escrow.status =
      some "invited" := by
  refine ⟨?_, ?_, ?_⟩
  · rw [stActive_eq]
    simp [findEscrow, List.find?]
  · rw [stActive_eq]
    simp [sendInvite, findEscrow, updEscrow, apiOk, List.find?]
  · rw [stActive_eq]
    simp [sendInvite, findEscrow, updEscrow, apiOk, List.find?]

/-- Claim C6 (amended): when the token locates an escrow whose
customer_email differs from the caller's email, acceptInvite fails with
403 AccessDenied regardless of the escrow's status, writing nothing; but
when the token matches no escrow the call fails with 404 NotFound, not
AccessDenied. -/
theorem c6_accept_email_mismatch :
    ∀ (s : Store) (actorId : Nat) (actorEmail tok : String) (now : Nat),
    (findEscrowByToken s tok = none →
      acceptInvite s actorId actorEmail tok now =
        (apiErr 404 "Invalid or expired invite", s)) ∧
    (∀ e, findEscrowByToken s tok = some e →
      e.customer_email ≠ actorEmail →
      acceptInvite s actorId actorEmail tok now =
        (apiErr 403 "This invitation was sent to a different email address",
          s)) := by
  intro s actorId actorEmail tok now
  constructor
  · intro h
    unfold acceptInvite
    rw [h]
  · intro e he hne
    unfold acceptInvite
    rw [he]
    dsimp only
    rw [if_pos hne]

/-- Witness for C6: a token that matches nothing yields 404; the concrete
store's token with a wrong caller email yields 403, with no writes in
either case. -/
theorem c6_accept_email_mismatch_witness :
    acceptInvite emptyStore 1 "a" "t" 0 =
      (apiErr 404 "Invalid or expired invite", emptyStore) ∧
    acceptInvite wStore 9 "x" "t" 5 =
      (apiErr 403 "This invitation was sent to a different email address",
        wStore) :=
  ⟨(c6_accept_email_mismatch emptyStore 1 "a" "t" 0).1 rfl,
   (c6_accept_email_mismatch wStore 9 "x" "t" 5).2 wEscrow rfl
     (by decide)⟩

/-- Counterexample for C6 as stated: when the supplied token matches no
escrow, the call answers 404, not the claimed 403 AccessDenied. -/
theorem c6_accept_email_mismatch_counterexample :
    (acceptInvite emptyStore 1 "a" "t" 0).1.code = 404 ∧
    (acceptInvite emptyStore 1 "a" "t" 0).1.code ≠ 403 := by
  constructor
  · rfl
  · intro h
    simp [acceptInvite, emptyStore, findEscrowByToken, apiErr] at h

/-- Claim C7 (amended): the approve-loan / reject-loan routes
(verification-lender.js) behave as claimed — role gated to lender or
admin, precondition status = requested with the current status reported,
recording reviewer, timestamp, notes/conditions and a status-history row —
but the second route set (lender.js `loan/:id/approve`, `loan/:id/reject`)
gates on role exactly `lender` (admin is denied), enforces NO status
precondition, and appends no history row. -/
theorem c7_lender_review :
    ((∀ (s : Store) (actor : Actor) (loanId : Nat)
        (notes conds : Option String) (now : Nat),
      actor.role ≠ "lender" → actor.role ≠ "admin" →
      approveLoanVL s actor loanId notes conds now =
        (apiErr 403 "Lender access required", s)) ∧
     (∀ (s : Store) (actor : Actor) (loanId : Nat)
        (notes conds : Option String) (now : Nat) (loan : Loan),
      (actor.role = "lender" ∨ actor.role = "admin") →
      findLoan s loanId = some loan → loan.status ≠ "requested" →
      approveLoanVL s actor loanId notes conds now =
        ({ code := 400, success := false,
           error := some "Loan is not pending approval",
           currentStatus := some loan.status }, s)) ∧
     (∀ (s : Store) (actor : Actor) (loanId : Nat)
        (notes conds : Option String) (now : Nat) (loan : Loan),
      (actor.role = "lender" ∨ actor.role = "admin") →
      findLoan s loanId = some loan → loan.status = "requested" →
      (approveLoanVL s actor loanId notes conds now).1.success = true ∧
      findLoan (approveLoanVL s actor loanId notes conds now).2 loanId =
        some { loan with status := "approved",
                         lender_id := some actor.id,
                         reviewed_at := some now,
                         approved_at := some now,
                         lender_notes := notes,
                         approval_conditions := conds } ∧
      (approveLoanVL s actor loanId notes conds now).2.loanHistory =
        s.loanHistory ++
          [{ loan_id := loanId, old_status := "requested",
             new_status := "approved", changed_by := actor.id,
             notes := notes }])) ∧
    ((∀ (s : Store) (actor : Actor) (loanId : Nat) (reason : String)
        (now : Nat),
      actor.role ≠ "lender" → actor.role ≠ "admin" →
      rejectLoanVL s actor loanId (some reason) now =
        (apiErr 403 "Lender access required", s)) ∧
     (∀ (s : Store) (actor : Actor) (loanId : Nat) (reason : String)
        (now : Nat) (loan : Loan),
      (actor.role = "lender" ∨ actor.role = "admin") →
      findLoan s loanId = some loan → loan.status ≠ "requested" →
      rejectLoanVL s actor loanId (some reason) now =
        ({ code := 400, success := false,
           error := some "Loan is not pending approval",
           currentStatus := some loan.status }, s)) ∧
     (∀ (s : Store) (actor : Actor) (loanId : Nat) (reason : String)
        (now : Nat) (loan : Loan),
      (actor.role = "lender" ∨ actor.role = "admin") →
      findLoan s loanId = some loan → loan.status = "requested" →
      (rejectLoanVL s actor loanId (some reason) now).1.success = true ∧
      findLoan (rejectLoanVL s actor loanId (some reason) now).2 loanId =
        some { loan with status := "rejected",
                         lender_id := some actor.id,
                         reviewed_at := some now,
                         lender_notes := some reason } ∧
      (rejectLoanVL s actor loanId (some reason) now).2.loanHistory =
        s.loanHistory ++
          [{ loan_id := loanId, old_status := "requested",
             new_status := "rejected", changed_by := actor.id,
             notes := some reason }])) ∧
    ((∀ (s : Store) (actor : Actor) (loanId : Nat) (conds : Option String)
        (now : Nat),
      actor.role = "admin" →
      approveLoanLender s actor loanId conds now =
        (apiErr 403 "Access denied - lender role required", s)) ∧
     (∀ (s : Store) (actor : Actor) (loanId : Nat) (conds : Option String)
        (now : Nat) (loan : Loan),
      actor.role = "lender" → findLoan s loanId = some loan →
      (approveLoanLender s actor loanId conds now).1.success = true ∧
      findLoan (approveLoanLender s actor loanId conds now).2 loanId =
        some { loan with status := "approved",
                         lender_id := some actor.id,
                         approval_conditions := conds,
                         reviewed_at := some now } ∧
      (approveLoanLender s actor loanId conds now).2.loanHistory =
        s.loanHistory) ∧
     (∀ (s : Store) (actor : Actor) (loanId : Nat) (reason : Option String)
        (now : Nat),
      actor.role = "admin" →
      rejectLoanLender s actor loanId reason now =
        (apiErr 403 "Access denied - lender role required", s)) ∧
     (∀ (s : Store) (actor : Actor) (loanId : Nat) (reason : Option String)
        (now : Nat) (loan : Loan),
      actor.role = "lender" → findLoan s loanId = some loan →
      (rejectLoanLender s actor loanId reason now).1.success = true ∧
      findLoan (rejectLoanLender s actor loanId reason now).2 loanId =
        some { loan with status := "rejected",
                         lender_id := some actor.id,
                         lender_notes := reason,
                         reviewed_at := some now } ∧
      (rejectLoanLender s actor loanId reason now).2.loanHistory =
        s.loanHistory)) := by
  refine ⟨⟨?_, ?_, ?_⟩, ⟨?_, ?_, ?_⟩, ⟨?_, ?_, ?_, ?_⟩⟩
  · intro s actor loanId notes conds now h1 h2
    unfold approveLoanVL
    rw [if_pos ⟨h1, h2⟩]
  · intro s actor loanId notes conds now loan hrole hLoan hstat
    have hnrole : ¬ (actor.role ≠ "lender" ∧ actor.role ≠ "admin") := by
      rcases hrole with h | h <;> simp [h]
    unfold approveLoanVL
    rw [if_neg hnrole]
    simp only [hLoan]
    rw [if_pos hstat]
  · intro s actor loanId notes conds now loan hrole hLoan hstat
    have hnrole : ¬ (actor.role ≠ "lender" ∧ actor.role ≠ "admin") := by
      rcases hrole with h | h <;> simp [h]
    have hns : ¬ loan.status ≠ "requested" := by simp [hstat]
    unfold approveLoanVL
    rw [if_neg hnrole]
    simp only [hLoan]
    rw [if_neg hns]
    refine ⟨rfl, ?_, rfl⟩
    have hLoan' : List.find? (fun x : Loan => x.id == loanId) s.loans
        = some loan := hLoan
    exact findLoanId_upd s.loans loanId
      (fun x => { x with status := "approved",
                         lender_id := some actor.id,
                         reviewed_at := some now,
                         approved_at := some now,
                         lender_notes := notes,
                         approval_conditions := conds })
      (fun _ => rfl) loan hLoan'
  · intro s actor loanId reason now h1 h2
    unfold rejectLoanVL
    rw [if_pos ⟨h1, h2⟩]
  · intro s actor loanId reason now loan hrole hLoan hstat
    have hnrole : ¬ (actor.role ≠ "lender" ∧ actor.role ≠ "admin") := by
      rcases hrole with h | h <;> simp [h]
    unfold rejectLoanVL
    rw [if_neg hnrole, if_neg (by simp : ¬ (some reason = none))]
    simp only [hLoan]
    rw [if_pos hstat]
  · intro s actor loanId reason now loan hrole hLoan hstat
    have hnrole : ¬ (actor.role ≠ "lender" ∧ actor.role ≠ "admin") := by
      rcases hrole with h | h <;> simp [h]
    have hns : ¬ loan.status ≠ "requested" := by simp [hstat]
    unfold rejectLoanVL
    rw [if_neg hnrole, if_neg (by simp : ¬ (some reason = none))]
    simp only [hLoan]
    rw [if_neg hns]
    refine ⟨rfl, ?_, rfl⟩
    have hLoan' : List.find? (fun x : Loan => x.id == loanId) s.loans
        = some loan := hLoan
    exact findLoanId_upd s.loans loanId
      (fun x => { x with status := "rejected",
                         lender_id := some actor.id,
                         reviewed_at := some now,
                         lender_notes := some reason })
      (fun _ => rfl) loan hLoan'
  · intro s actor loanId conds now h
    unfold approveLoanLender
    rw [if_pos (show actor.role ≠ "lender" by rw [h]; simp)]
  · intro s actor loanId conds now loan hrole hLoan
    unfold approveLoanLender
    rw [if_neg (by simp [hrole])]
    simp only [hLoan]
    refine ⟨rfl, ?_, by trivial⟩
    have hLoan' : List.find? (fun x : Loan => x.id == loanId) s.loans
        = some loan := hLoan
    exact findLoanId_upd s.loans loanId
      (fun x => { x with status := "approved",
                         lender_id := some actor.id,
                         approval_conditions := conds,
                         reviewed_at := some now })
      (fun _ => rfl) loan hLoan'
  · intro s actor loanId reason now h
    unfold rejectLoanLender
    rw [if_pos (show actor.role ≠ "lender" by rw [h]; simp)]
  · intro s actor loanId reason now loan hrole hLoan
    unfold rejectLoanLender
    rw [if_neg (by simp [hrole])]
    simp only [hLoan]
    refine ⟨rfl, ?_, by trivial⟩
    have hLoan' : List.find? (fun x : Loan => x.id == loanId) s.loans
        = some loan := hLoan
    exact findLoanId_upd s.loans loanId
      (fun x => { x with status := "rejected",
                         lender_id := some actor.id,
                         lender_notes := reason,
                         reviewed_at := some now })
      (fun _ => rfl) loan hLoan'

/-- Witness for C7: a lender approving a requested loan through the
verification-lender route records everything and appends the history row. -/
theorem c7_lender_review_witness :
    (approveLoanVL wLoanStore wLender 4 (some "n") (some "c") 3).1.success
      = true ∧
    findLoan (approveLoanVL wLoanStore wLender 4 (some "n") (some "c")
        3).2 4 =
      some { wLoan with status := "approved",
                        lender_id := some wLender.id,
                        reviewed_at := some 3,
                        approved_at := some 3,
                        lender_notes := some "n",
                        approval_conditions := some "c" } ∧
    (approveLoanVL wLoanStore wLender 4 (some "n") (some "c")
        3).2.loanHistory =
      wLoanStore.loanHistory ++
        [{ loan_id := 4, old_status := "requested",
           new_status := "approved", changed_by := wLender.id,
           notes := some "n" }] :=
  c7_lender_review.1.2.2 wLoanStore wLender 4 (some "n") (some "c") 3 wLoan
    (Or.inl rfl) rfl rfl

/-- Counterexample for C7 as stated: on the lender.js route set an admin
is denied (403) on both the approve and the reject route although the
claim admits role admin, and a lender "approves" or "rejects" a loan
already in status `funded` with no InvalidState error and no
status-history row. -/
theorem c7_lender_review_counterexample :
    (approveLoanLender wLoanStore wAdmin 4 none 0).1.code = 403 ∧
    (approveLoanLender wLoanStore wAdmin 4 none 0).1.success = false ∧
    (approveLoanLender wLoanStoreFunded wLender 5 none 0).1.success
      = true ∧
    (findLoan (approveLoanLender wLoanStoreFunded wLender 5 none 0).2
        5).map Loan.status = some "approved" ∧
    (approveLoanLender wLoanStoreFunded wLender 5 none 0).2.loanHistory
      = [] ∧
    (rejectLoanLender wLoanStore wAdmin 4 (some "x") 0).1.code = 403 ∧
    (rejectLoanLender wLoanStore wAdmin 4 (some "x") 0).1.success
      = false ∧
    (rejectLoanLender wLoanStoreFunded wLender 5 (some "x") 0).1.success
      = true ∧
    (findLoan (rejectLoanLender wLoanStoreFunded wLender 5 (some "x")
        0).2 5).map Loan.status = some "rejected" ∧
    (rejectLoanLender wLoanStoreFunded wLender 5 (some "x")
        0).2.loanHistory = [] := by
  refine ⟨?_, ?_, ?_, ?_, ?_, ?_, ?_, ?_, ?_, ?_⟩ <;>
    simp [approveLoanLender, rejectLoanLender, findLoan, updLoan, apiErr,
      apiOk, wLoanStore, wLoanStoreFunded, wAdmin, wLender, wLoan,
      wLoanFunded, List.find?]
